import Mathlib

/-!
Verification of the session-compilation core of the bedrock-workflow-generator
repository: the event simplifier, step synthesizer, event-step correlator,
temporal gap analyzer (wait inserter), wait-reason classifier, workflow
enricher (all in `src/core/workflow_generator.py`) and the third-party format
adapter (`src/tools/format_converter.py`).

Python strings are modelled as Lean `String`s with hand-rolled, kernel-reducible
implementations of the string methods the source uses (`replace`, `lower`,
`upper`, `capitalize`, `strip`, slicing, and the `in` substring test), written
for the ASCII data that flows through this code.  Python's heterogeneous dict
values are modelled by the `PyVal` sum type; dicts are association lists with
Python's insertion-order update semantics.  Timestamps are rationals counting
seconds, so subtraction of two timestamps is `total_seconds()` of the Python
timedelta.  `round(x, 1)` is Python's bankers rounding at one decimal.
-/

/-! ### Python string primitives -/

/-- ASCII lower-casing of a character, as Python `str.lower` does on ASCII. -/
def charLower (c : Char) : Char :=
  if 65 ≤ c.toNat ∧ c.toNat ≤ 90 then Char.ofNat (c.toNat + 32) else c

/-- ASCII upper-casing of a character. -/
def charUpper (c : Char) : Char :=
  if 97 ≤ c.toNat ∧ c.toNat ≤ 122 then Char.ofNat (c.toNat - 32) else c

/-- Python `str.lower()`. -/
def pyLower (s : String) : String := String.mk (s.toList.map charLower)

/-- Python `str.upper()`. -/
def pyUpper (s : String) : String := String.mk (s.toList.map charUpper)

/-- Python `str.capitalize()`: first character upper-cased, rest lower-cased. -/
def pyCapitalize (s : String) : String :=
  match s.toList with
  | [] => ""
  | c :: cs => String.mk (charUpper c :: cs.map charLower)

/-- Replace every (non-overlapping, left-to-right) occurrence of `pat` by
`rep`, on character lists; the fuel argument (instantiated with the list
length, an upper bound on the number of steps) keeps the recursion
structural, so that it evaluates inside the kernel. -/
def listReplaceAux : ℕ → List Char → List Char → List Char → List Char
  | 0, s, _, _ => s
  | _ + 1, [], _, _ => []
  | fuel + 1, c :: cs, pat, rep =>
    if pat ≠ [] ∧ pat.isPrefixOf (c :: cs) then
      rep ++ listReplaceAux fuel ((c :: cs).drop pat.length) pat rep
    else
      c :: listReplaceAux fuel cs pat rep

/-- Python `str.replace(pat, rep)` (replace all occurrences). -/
def pyReplace (s pat rep : String) : String :=
  String.mk (listReplaceAux s.toList.length s.toList pat.toList rep.toList)

/-- Does `pat` occur as a contiguous sublist of `s`? -/
def listContains (pat : List Char) : List Char → Bool
  | [] => pat.isEmpty
  | c :: cs => pat.isPrefixOf (c :: cs) || listContains pat cs

/-- Python's substring test `pat in s`. -/
def strIn (pat s : String) : Bool := listContains pat.toList s.toList

/-- Whitespace characters stripped by Python `str.strip()` (ASCII subset). -/
def isPySpace (c : Char) : Bool :=
  c.toNat = 32 ∨ c.toNat = 9 ∨ c.toNat = 10 ∨ c.toNat = 13 ∨ c.toNat = 11 ∨ c.toNat = 12

/-- Python `str.strip()`. -/
def pyStrip (s : String) : String :=
  String.mk (((s.toList.dropWhile isPySpace).reverse.dropWhile isPySpace).reverse)

/-- Python slicing `s[:n]`. -/
def pyTake (s : String) (n : ℕ) : String := String.mk (s.toList.take n)

/-- Python `str.startswith(pre)`. -/
def pyStartsWith (s pre : String) : Bool := pre.toList.isPrefixOf s.toList

/-- A single-quote character, used in Python f-string output. -/
def quo : String := String.mk [Char.ofNat 39]

/-! ### Python values and dicts -/

/-- A Python value as it occurs in this codebase's event data, step parameters
and selector values: a string, a number (ints and floats conflated as
rationals), `None`, a list of key-name strings, or a coordinate dict mapping
names to numbers. -/
inductive PyVal where
  | str (s : String)
  | num (q : ℚ)
  | null
  | strList (l : List String)
  | numDict (l : List (String × ℚ))
deriving DecidableEq, Repr, Inhabited

/-- First-match lookup in an association-list dict. -/
def pyLookup : List (String × PyVal) → String → Option PyVal
  | [], _ => none
  | (k0, v0) :: rest, k => if k0 = k then some v0 else pyLookup rest k

/-- Python `dict.get(k, dflt)`. -/
def pyGetD (d : List (String × PyVal)) (k : String) (dflt : PyVal) : PyVal :=
  (pyLookup d k).getD dflt

/-- Python `dict.get(k)` (default `None`). -/
def pyGet (d : List (String × PyVal)) (k : String) : PyVal := pyGetD d k .null

/-- Python `d[k] = v`: update the value in place if the key exists, else
append (dict insertion-order semantics). -/
def dictSet : List (String × PyVal) → String → PyVal → List (String × PyVal)
  | [], k, v => [(k, v)]
  | (k0, v0) :: rest, k, v =>
    if k0 = k then (k0, v) :: rest else (k0, v0) :: dictSet rest k v

/-- Python truthiness of a value (`if value:`). -/
def pyTruthy : PyVal → Bool
  | .str s => s ≠ ""
  | .num q => q ≠ 0
  | .null => false
  | .strList l => l ≠ []
  | .numDict l => l ≠ []

/-- `dict.get(k, dflt)` for code that goes on to use the result as a string
(`.lower()`, `.replace()`, concatenation).  The data reaching such call sites
always holds strings; a non-string is mapped to the default. -/
def pyGetStrD (d : List (String × PyVal)) (k : String) (dflt : String) : String :=
  match pyGetD d k (.str dflt) with
  | .str s => s
  | _ => dflt

/-- `dict.get("keys", [])` for code that iterates the result as a list of raw
key tokens (already `str()`-converted). -/
def pyGetStrList (d : List (String × PyVal)) (k : String) : List String :=
  match pyGet d k with
  | .strList l => l
  | _ => []

/-- Lookup inside a coordinate dict, `coords.get(k)` (default `None`). -/
def coordGet (c : List (String × ℚ)) (k : String) : PyVal :=
  match c.lookup k with
  | some q => .num q
  | none => .null

/-- Python's numeric comparison `value > bound` for a dict-read value; only
numbers compare true (matching the numeric data that reaches these sites). -/
def pyGtNum (v : PyVal) (bound : ℚ) : Bool :=
  match v with
  | .num q => bound < q
  | _ => false

/-- Addition of rationals in an explicitly computable form (equal to `+` by
`qadd_eq` below; the library's `Rat.add` is reducibility-restricted and does
not evaluate inside the kernel). -/
def qadd (a b : ℚ) : ℚ := mkRat (a.num * b.den + b.num * a.den) (a.den * b.den)

/-- Subtraction of rationals in an explicitly computable form (equal to `-`
by `qsub_eq` below). -/
def qsub (a b : ℚ) : ℚ := mkRat (a.num * b.den - b.num * a.den) (a.den * b.den)

/-- Multiplication of rationals in an explicitly computable form (equal to
`*` by `qmul_eq` below). -/
def qmul (a b : ℚ) : ℚ := mkRat (a.num * b.num) (a.den * b.den)

/-- Python `min` on two numbers: the first argument when it is not larger
(equal to `min` by `qmin_eq` below). -/
def qmin (a b : ℚ) : ℚ := if a ≤ b then a else b

/-- The floor of a rational: floor division of numerator by (positive)
denominator (equal to `Int.floor` by `qfloor_eq` below). -/
def qfloor (a : ℚ) : ℤ := Int.fdiv a.num a.den

/-- Rendering of a rational the way Python prints the floats appearing here
(one decimal digit after `round(x, 1)`). -/
def pyFloatStr (q : ℚ) : String :=
  if q.den = 1 then toString q.num ++ ".0"
  else if (qmul q 10).den = 1 then
    toString ((qmul q 10).num / 10) ++ "." ++ toString ((qmul q 10).num % 10).natAbs
  else toString q.num ++ "/" ++ toString q.den

/-- Python `str(value)`. -/
def pyStr : PyVal → String
  | .str s => s
  | .num q => if q.den = 1 then toString q.num else pyFloatStr q
  | .null => "None"
  | .strList l => "[" ++ String.intercalate ", " (l.map (fun x => quo ++ x ++ quo)) ++ "]"
  | .numDict l =>
      "\x7b" ++ String.intercalate ", " (l.map (fun p => quo ++ p.1 ++ quo ++ ": " ++ toString p.2.num)) ++ "\x7d"

/-- Python `round(x, 1)`: bankers rounding (round half to even) at one
decimal digit. -/
def pyRound1 (x : ℚ) : ℚ :=
  let y := qmul x 10
  let n := qfloor y
  let r := qsub y (mkRat n 1)
  let k :=
    if r < mkRat 1 2 then n
    else if mkRat 1 2 < r then n + 1
    else if n % 2 = 0 then n else n + 1
  mkRat k 10

/-! ### Data model (the repository's `src/models` package is not present;
these record types are reconstructed from the specification, section 3) -/

/-- Modelled from the spec: the closed enumeration of event kinds carried by
`EventLog.event_type` (the `src/models/events.py` module is missing from the
sources; only its importers are present). -/
inductive EventType where
  | mouse_click
  | mouse_double_click
  | mouse_drag
  | scroll
  | text_input
  | key_press
  | key_combination
  | navigation
  | screenshot
deriving DecidableEq, Repr, Inhabited

/-- Modelled from the spec: the closed enumeration of workflow-step action
kinds (`src/models/workflow.py` is missing from the sources). -/
inductive ActionType where
  | click
  | right_click
  | double_click
  | type_text
  | press_key
  | key_combination
  | scroll
  | drag
  | wait
  | navigate
deriving DecidableEq, Repr, Inhabited

/-- Modelled from the spec: one recorded interaction event — a sortable
timestamp (rational seconds), an event kind, a mapping of kind-specific named
attributes, and an optional screenshot reference. -/
structure EventLog where
  timestamp : ℚ
  event_type : EventType
  data : List (String × PyVal)
  screenshot_ref : Option String := none
deriving DecidableEq, Repr, Inhabited

/-- Modelled from the spec: a fallback selector (a type tag with a value);
in every construction in the sources a fallback is a coordinates selector
with no further fallback of its own. -/
structure SelectorBase where
  type : String
  value : PyVal
deriving DecidableEq, Repr, Inhabited

/-- Modelled from the spec: a target descriptor — a type tag (`"text"` or
`"coordinates"`), a value (label string or coordinate dict), and an optional
fallback selector. -/
structure Selector where
  type : String
  value : PyVal
  fallback : Option SelectorBase := none
deriving DecidableEq, Repr, Inhabited

/-- Modelled from the spec: one compiled workflow step with execution-policy
fields (post-step delay, retry count, failure policy) defaulted as the spec
describes. -/
structure WorkflowStep where
  step_id : String
  action : ActionType
  description : String
  selector : Option Selector := none
  parameters : List (String × PyVal) := []
  delay_after : ℚ := 0
  retry_count : ℕ := 0
  failure_policy : String := "stop"
  screenshot_before : Option String := none
  screenshot_after : Option String := none
deriving DecidableEq, Repr, Inhabited

/-- Modelled from the spec: a compiled workflow definition. -/
structure WorkflowDefinition where
  workflow_id : String
  name : String
  description : String
  version : String := "1.0"
  application : String
  steps : List WorkflowStep
  vars : List (String × PyVal) := []
  preconditions : List String := []
  metadata : List (String × PyVal) := []
deriving DecidableEq, Repr, Inhabited

/-- Modelled from the spec: one recorded session timeline. -/
structure SessionTimeline where
  session_id : String
  start_time : ℚ
  end_time : Option ℚ := none
  application : String
  events : List EventLog
  metadata : List (String × PyVal) := []
deriving DecidableEq, Repr, Inhabited

/-! ### Event simplifier (`simplify_actions` / `group_typing_sequences`) -/

/-- The inner collection loop of `group_typing_sequences`: starting at a
text-input event, gather the text fragments of the run
*text-input (key-press "space" text-input)\** and count the events consumed.
A key-press that is not a space, a non-key event after a text fragment, or a
non-text event after a space all terminate the run (the source breaks out of
the `while` in each of those cases having consumed the same events). -/
def collectRun : List EventLog → List String × ℕ
  | [] => ([], 0)
  | e :: rest =>
    if e.event_type = EventType.text_input then
      let t := pyGetStrD e.data "text" ""
      match rest with
      | [] => ([t], 1)
      | k :: rest2 =>
        if k.event_type = EventType.key_press ∧
            strIn "space" (pyLower (pyGetStrD k.data "key" "")) then
          let pr := collectRun rest2
          (t :: " " :: pr.1, pr.2 + 2)
        else ([t], 1)
    else ([], 0)

/-- The combined event built when `group_typing_sequences` merges a run of
`n > 1` events starting at `e`: joined text stripped of surrounding
whitespace, element metadata copied from the first event, and the merge count
recorded under `"grouped_from"`. -/
def mergedEvent (e : EventLog) (parts : List String) (n : ℕ) : EventLog :=
  { timestamp := e.timestamp
    event_type := EventType.text_input
    data := [("text", .str (pyStrip (String.join parts))),
             ("element_name", pyGet e.data "element_name"),
             ("element_type", pyGet e.data "element_type"),
             ("automation_id", pyGet e.data "automation_id"),
             ("grouped_from", .num n)]
    screenshot_ref := e.screenshot_ref }

/-- The outer loop of `group_typing_sequences`.  The fuel argument
(instantiated with the list length, an upper bound on the number of loop
iterations since each iteration consumes at least one event) keeps the
recursion structural, so that it evaluates inside the kernel. -/
def groupTypingAux : ℕ → List EventLog → List EventLog
  | 0, l => l
  | _ + 1, [] => []
  | fuel + 1, e :: rest =>
    if e.event_type = EventType.text_input then
      let pr := collectRun (e :: rest)
      if 1 < pr.2 then
        mergedEvent e pr.1 pr.2 :: groupTypingAux fuel (rest.drop (pr.2 - 1))
      else
        e :: groupTypingAux fuel rest
    else
      e :: groupTypingAux fuel rest

/-- `group_typing_sequences`: combine TYPE → PRESS(space) → TYPE sequences
into single TYPE_TEXT events; all other events pass through unchanged. -/
def group_typing_sequences (events : List EventLog) : List EventLog :=
  groupTypingAux events.length events

/-- `simplify_actions`: the only grouping pass applied is
`group_typing_sequences` (the copy-paste pattern pass is commented out in the
source). -/
def simplify_actions (events : List EventLog) : List EventLog :=
  group_typing_sequences events

/-! ### Step synthesizer (`_event_to_step` and its helpers) -/

/-- `_format_key_name`: display names for common keys, defaulting to
`key.capitalize()`. -/
def format_key_name (key : String) : String :=
  let k := pyLower key
  if k = "enter" then "Enter"
  else if k = "esc" then "Escape"
  else if k = "escape" then "Escape"
  else if k = "space" then "Space"
  else if k = "tab" then "Tab"
  else if k = "backspace" then "Backspace"
  else if k = "delete" then "Delete"
  else if k = "up" then "↑"
  else if k = "down" then "↓"
  else if k = "left" then "←"
  else if k = "right" then "→"
  else pyCapitalize key

/-- The raw spelling `'\x03'` (quote, backslash-x-0-3, quote) the source
compares key tokens against for Ctrl+C. -/
def rawCtrlC : String := quo ++ "\\x03" ++ quo

/-- The raw spelling `'\x16'` the source compares key tokens against for
Ctrl+V. -/
def rawCtrlV : String := quo ++ "\\x16" ++ quo

/-- `_parse_key_combination`: canonicalize each raw key token and join with
`+`. -/
def parse_key_combination (keys : List String) : String :=
  let key_parts := keys.map (fun key =>
    let key_str := pyLower key
    if strIn "ctrl" key_str then "Ctrl"
    else if strIn "alt" key_str then "Alt"
    else if strIn "shift" key_str then "Shift"
    else if strIn rawCtrlC key_str || strIn "c" key_str then "C"
    else if strIn rawCtrlV key_str || strIn "v" key_str then "V"
    else pyUpper (pyReplace key_str quo ""))
  String.intercalate "+" key_parts

/-- `_generate_description` for click-family steps.  The branch in which an
element is named like a search/address bar but the action is neither click
nor right-click falls off the end of the source function (returning `None`);
it is rendered here as the empty string, a path no synthesized step reaches. -/
def generate_description (action : ActionType) (element_name element_type : PyVal)
    (data : List (String × PyVal)) : String :=
  let verb := if action = ActionType.right_click then "Right-click" else "Click"
  if pyTruthy element_name then
    let enStr := pyStr element_name
    let enL := pyLower enStr
    if strIn "search" enL || strIn "address" enL then
      if action = ActionType.click then "Click on search/address bar: " ++ quo ++ enStr ++ quo
      else if action = ActionType.right_click then "Right-click on " ++ quo ++ enStr ++ quo
      else ""
    else if element_type = .str "Button" then
      verb ++ " the " ++ quo ++ enStr ++ quo ++ " button"
    else if element_type = .str "Hyperlink" then
      verb ++ " on " ++ quo ++ enStr ++ quo ++ " link"
    else if element_type = .str "ListItem" then
      "Select " ++ quo ++ enStr ++ quo ++ " from menu"
    else if element_type = .str "Edit" ∨ element_type = .str "ComboBox" then
      verb ++ " on " ++ quo ++ enStr ++ quo ++ " input field"
    else
      verb ++ " on " ++ quo ++ enStr ++ quo
  else
    let x := pyGetD data "x" (.num 0)
    let y := pyGetD data "y" (.num 0)
    verb ++ " at coordinates (" ++ pyStr x ++ ", " ++ pyStr y ++ ")"

/-- `_create_selector`: text-based primary selector with coordinate fallback
when an element name exists, else coordinates only. -/
def create_selector (element_name : PyVal) (data : List (String × PyVal)) : Selector :=
  let x := (pyGetD data "x" (.num 0))
  let y := (pyGetD data "y" (.num 0))
  let xq := match x with | .num q => q | _ => 0
  let yq := match y with | .num q => q | _ => 0
  if pyTruthy element_name then
    { type := "text", value := element_name,
      fallback := some { type := "coordinates", value := .numDict [("x", xq), ("y", yq)] } }
  else
    { type := "coordinates", value := .numDict [("x", xq), ("y", yq)] }

/-- Read a coordinate-like field of event data as a rational (the source
stores these as numbers; `data.get(k, 0)`). -/
def pyGetNumD (d : List (String × PyVal)) (k : String) (dflt : ℚ) : ℚ :=
  match pyGetD d k (.num dflt) with
  | .num q => q
  | _ => dflt

/-- `_event_to_step`: convert one event log to a workflow step, or to no step
for screenshots (and for event kinds outside the enumeration's handled set). -/
def event_to_step (event : EventLog) (step_num : ℕ) : Option WorkflowStep :=
  let data := event.data
  let element_name := pyGetD data "element_name" (.str "")
  let element_type := pyGetD data "element_type" (.str "")
  let sid := "step-" ++ toString step_num
  match event.event_type with
  | .mouse_click =>
    let button := pyGetD data "button" (.str "left")
    let action := if button = .str "right" then ActionType.right_click else ActionType.click
    some { step_id := sid, action := action,
           description := generate_description action element_name element_type data,
           selector := some (create_selector element_name data),
           parameters := if button ≠ .str "left" then [("button", button)] else [],
           screenshot_before := event.screenshot_ref }
  | .mouse_double_click =>
    some { step_id := sid, action := ActionType.double_click,
           description := generate_description ActionType.double_click element_name element_type data,
           selector := some (create_selector element_name data),
           parameters := [] }
  | .mouse_drag =>
    let start_x := pyGetNumD data "start_x" 0
    let start_y := pyGetNumD data "start_y" 0
    let end_x := pyGetNumD data "end_x" 0
    let end_y := pyGetNumD data "end_y" 0
    let user_intent := pyGetD data "user_intent" (.str "")
    let coordsTxt := "(" ++ pyStr (.num start_x) ++ ", " ++ pyStr (.num start_y) ++ ") to ("
        ++ pyStr (.num end_x) ++ ", " ++ pyStr (.num end_y) ++ ")"
    some { step_id := sid, action := ActionType.drag,
           description :=
             if user_intent = .str "select_text_for_copy" then
               "Select text by dragging from " ++ coordsTxt
             else "Drag from " ++ coordsTxt,
           selector := some { type := "coordinates",
                              value := .numDict [("start_x", start_x), ("start_y", start_y),
                                                 ("end_x", end_x), ("end_y", end_y)] },
           parameters := [("end_x", .num end_x), ("end_y", .num end_y)] }
  | .text_input =>
    let text := pyGetD data "text" (.str "")
    let grouped_count := pyGetD data "grouped_from" (.num 0)
    let base :=
      if pyGtNum grouped_count 1 then "Type complete text: " ++ quo ++ pyStr text ++ quo
      else "Type " ++ quo ++ pyStr text ++ quo
    some { step_id := sid, action := ActionType.type_text,
           description :=
             if pyTruthy element_name then base ++ " into " ++ quo ++ pyStr element_name ++ quo
             else base,
           selector :=
             if pyTruthy element_name then some (create_selector element_name data) else none,
           parameters := [("text", text)] }
  | .key_press =>
    let key := pyGetStrD data "key" ""
    let user_intent := pyGetD data "user_intent" (.str "")
    let key_clean := pyLower (pyReplace key "Key." "")
    let key_display := format_key_name key_clean
    some { step_id := sid, action := ActionType.press_key,
           description :=
             if user_intent = .str "submit_input" then "Submit by pressing " ++ key_display
             else "Press " ++ key_display ++ " key",
           selector := none,
           parameters := [("key", .str key_clean)] }
  | .key_combination =>
    let keys := pyGetD data "keys" (.strList [])
    let user_intent := pyGetD data "user_intent" (.str "")
    let clipboard_content := pyGetStrD data "clipboard_content" ""
    if user_intent = .str "copy_to_clipboard" then
      let content_preview := pyTake (pyStrip clipboard_content) 50
      some { step_id := sid, action := ActionType.key_combination,
             description :=
               if content_preview ≠ "" then
                 "Copy text to clipboard: " ++ quo ++ content_preview ++ quo
               else "Copy selected text to clipboard (Ctrl+C)",
             selector := none,
             parameters := [("keys", .strList ["Ctrl", "C"]),
                            ("clipboard_content", .str clipboard_content)] }
    else if user_intent = .str "paste_from_clipboard" then
      let content_preview := pyTake (pyStrip clipboard_content) 50
      some { step_id := sid, action := ActionType.key_combination,
             description :=
               if content_preview ≠ "" then
                 "Paste text from clipboard: " ++ quo ++ content_preview ++ quo
               else "Paste from clipboard (Ctrl+V)",
             selector := none,
             parameters := [("keys", .strList ["Ctrl", "V"]),
                            ("clipboard_content", .str clipboard_content)] }
    else
      let key_combo := parse_key_combination (match keys with | .strList l => l | _ => [])
      some { step_id := sid, action := ActionType.key_combination,
             description := "Press " ++ key_combo,
             selector := none,
             parameters := [("keys", keys)] }
  | .scroll =>
    let delta_y := pyGetD data "delta_y" (.num 0)
    some { step_id := sid, action := ActionType.scroll,
           description := "Scroll " ++ (if pyGtNum delta_y 0 then "down" else "up"),
           selector := some { type := "coordinates",
                              value := .numDict [("x", pyGetNumD data "x" 0),
                                                 ("y", pyGetNumD data "y" 0)] },
           parameters := [("delta_x", pyGetD data "delta_x" (.num 0)), ("delta_y", delta_y)] }
  | .navigation =>
    let url := pyGetD data "url" (.str "")
    some { step_id := sid, action := ActionType.navigate,
           description := "Navigate to " ++ pyStr url,
           selector := none,
           parameters := [("url", url)] }
  | .screenshot => none

/-! ### Event-step correlator (`_find_step_event`) -/

/-- Click-family coordinate matching: the step's fallback coordinates against
the event's recorded coordinates (both sides read with `dict.get`, so two
absent values compare equal, as in Python). -/
def clickCoordsMatch (step : WorkflowStep) (event : EventLog) : Bool :=
  match step.selector with
  | some sel =>
    match sel.fallback with
    | some fb =>
      match fb.value with
      | .numDict coords =>
          pyGet event.data "x" == coordGet coords "x" &&
          pyGet event.data "y" == coordGet coords "y"
      | _ => false
    | none => false
  | none => false

/-- Drag matching attempt 1: selector-encoded start coordinates. -/
def dragSelectorMatch (step : WorkflowStep) (event : EventLog) : Bool :=
  match step.selector with
  | some sel =>
    match sel.value with
    | .numDict v =>
        pyGet event.data "start_x" == coordGet v "start_x" &&
        pyGet event.data "start_y" == coordGet v "start_y"
    | _ => false
  | none => false

/-- Drag matching attempt 2: parameter-encoded start coordinates. -/
def dragParamsMatch (step : WorkflowStep) (event : EventLog) : Bool :=
  pyGet event.data "start_x" == pyGet step.parameters "start_x" &&
  pyGet event.data "start_y" == pyGet step.parameters "start_y"

/-- Drag matching attempt 3: fallback-encoded coordinates against the drag
start point. -/
def dragFallbackMatch (step : WorkflowStep) (event : EventLog) : Bool :=
  match step.selector with
  | some sel =>
    match sel.fallback with
    | some fb =>
      match fb.value with
      | .numDict coords =>
          pyGet event.data "start_x" == coordGet coords "x" &&
          pyGet event.data "start_y" == coordGet coords "y"
      | _ => false
    | none => false
  | none => false

/-- Scroll matching: selector-encoded coordinates. -/
def scrollMatch (step : WorkflowStep) (event : EventLog) : Bool :=
  match step.selector with
  | some sel =>
    match sel.value with
    | .numDict v =>
        pyGet event.data "x" == coordGet v "x" &&
        pyGet event.data "y" == coordGet v "y"
    | _ => false
  | none => false

/-- One iteration of strategy 1 of `_find_step_event`: does `event` match
`step` under the kind-specific matching rules? -/
def matchStep (step : WorkflowStep) (event : EventLog) : Bool :=
  if step.action == ActionType.click || step.action == ActionType.right_click ||
      step.action == ActionType.double_click then
    event.event_type == EventType.mouse_click && clickCoordsMatch step event
  else if step.action == ActionType.type_text then
    event.event_type == EventType.text_input &&
      pyGet event.data "text" == pyGet step.parameters "text"
  else if step.action == ActionType.press_key then
    event.event_type == EventType.key_press &&
      pyLower (pyReplace (pyGetStrD event.data "key" "") "Key." "") ==
        pyLower (pyGetStrD step.parameters "key" "")
  else if step.action == ActionType.key_combination then
    event.event_type == EventType.key_combination &&
      (let je := String.intercalate " " ((pyGetStrList event.data "keys").map pyLower)
       let js := String.intercalate " " ((pyGetStrList step.parameters "keys").map pyLower)
       (strIn "ctrl" js && strIn "c" js &&
          (strIn "ctrl" je || strIn "ctrl_l" je) && (strIn "c" je || strIn rawCtrlC je)) ||
       (strIn "ctrl" js && strIn "v" js &&
          (strIn "ctrl" je || strIn "ctrl_l" je) && (strIn "v" je || strIn rawCtrlV je)))
  else if step.action == ActionType.drag then
    event.event_type == EventType.mouse_drag &&
      (dragSelectorMatch step event || dragParamsMatch step event ||
       dragFallbackMatch step event)
  else if step.action == ActionType.scroll then
    event.event_type == EventType.scroll && scrollMatch step event
  else false

/-- `_find_step_event`: strategy 1 scans the events for a kind-specific match;
strategy 2 falls back to the event at the step's own index, when in range. -/
def find_step_event (step : WorkflowStep) (events : List EventLog) (step_index : ℕ) :
    Option EventLog :=
  match events.find? (matchStep step) with
  | some e => some e
  | none => if step_index < events.length then some (events.getD step_index default) else none

/-! ### Wait-reason classifier (`_infer_wait_reason`) -/

/-- `_infer_wait_reason`: heuristic short phrase for why a gap exists,
first matching rule wins.  The `next_event` argument is accepted and unused,
as in the source. -/
def infer_wait_reason (current_event next_event : EventLog) : String :=
  let current_desc := pyLower (pyGetStrD current_event.data "element_name" "")
  if current_event.event_type = EventType.key_press ∧
      strIn "enter" (pyLower (pyStr (pyGetD current_event.data "key" (.str "")))) then
    "page load and navigation"
  else if strIn "search" current_desc || strIn "address" current_desc then
    "search results to load"
  else if current_event.event_type = EventType.mouse_click then
    let element_name := pyGetStrD current_event.data "element_name" ""
    let element_type := pyGetStrD current_event.data "element_type" ""
    if strIn "tab" (pyLower element_name) then "new tab to open"
    else if strIn "button" (pyLower element_type) || strIn "link" (pyLower element_type) then
      "page load after click"
    else if strIn "window" (pyLower element_name) then "window to open"
    else "UI response"
  else if current_event.event_type = EventType.key_combination then
    let keys := (pyGetStrList current_event.data "keys").map pyLower
    if keys.any (fun k => strIn "c" k || strIn rawCtrlC k) then "copy operation"
    else if keys.any (fun k => strIn "v" k || strIn rawCtrlV k) then "paste operation"
    else "keyboard shortcut"
  else if current_event.event_type = EventType.mouse_drag then
    "text selection"
  else
    "action to complete"

/-! ### Temporal gap analyzer (`insert_wait_steps`) -/

/-- Stable insertion into a timestamp-sorted list (Python `sorted` is stable;
any stable comparison sort computes the same list). -/
def sortedInsert (e : EventLog) : List EventLog → List EventLog
  | [] => [e]
  | x :: xs => if e.timestamp ≤ x.timestamp then e :: x :: xs else x :: sortedInsert e xs

/-- `sorted(session.events, key=lambda e: e.timestamp)`. -/
def sortEvents (events : List EventLog) : List EventLog :=
  events.foldr sortedInsert []

/-- The synthetic wait step built by `insert_wait_steps` after `step` for an
observed gap `time_delta` and clamped duration `wait_duration`. -/
def mkWaitStep (step : WorkflowStep) (wait_duration time_delta : ℚ) (wait_reason : String) :
    WorkflowStep :=
  { step_id := step.step_id ++ "-wait"
    action := ActionType.wait
    description := "Wait " ++ pyFloatStr wait_duration ++ "s for " ++ wait_reason
    selector := none
    parameters := [("duration_seconds", .num wait_duration),
                   ("original_gap", .num (pyRound1 time_delta))] }

/-- The loop body of `insert_wait_steps` for position `i`: the wait step (if
any) appended right after step `i`.  There is one exactly when `i` is not the
last position, both step `i` and step `i+1` correlate to events, and the
correlated timestamps are at least `min_wait_threshold` apart. -/
def waitAfter (steps : List WorkflowStep) (sorted_events : List EventLog)
    (min_wait_threshold buffer_seconds max_wait_seconds : ℚ) (i : ℕ) :
    Option WorkflowStep :=
  if i + 1 < steps.length then
    let step := steps.getD i default
    let next_step := steps.getD (i + 1) default
    match find_step_event step sorted_events i, find_step_event next_step sorted_events (i + 1) with
    | some current_event, some next_event =>
      let time_delta := qsub next_event.timestamp current_event.timestamp
      if min_wait_threshold ≤ time_delta then
        some (mkWaitStep step (qmin (pyRound1 (qadd time_delta buffer_seconds)) max_wait_seconds)
          time_delta (infer_wait_reason current_event next_event))
      else none
    | _, _ => none
  else none

/-- `insert_wait_steps`: walk consecutive step pairs, correlate both sides to
source events, and insert a wait step after the first of any pair whose
correlated timestamps differ by at least the threshold; then record the new
total step count and the number of waits inserted in the metadata.  Empty
workflows or sessions are returned untouched. -/
def insert_wait_steps (workflow : WorkflowDefinition) (session : SessionTimeline)
    (min_wait_threshold : ℚ := 2) (buffer_seconds : ℚ := 1) (max_wait_seconds : ℚ := 10) :
    WorkflowDefinition :=
  if workflow.steps = [] ∨ session.events = [] then workflow
  else
    let sorted_events := sortEvents session.events
    let new_steps := (List.range workflow.steps.length).flatMap (fun i =>
      workflow.steps.getD i default ::
        (waitAfter workflow.steps sorted_events min_wait_threshold buffer_seconds
          max_wait_seconds i).toList)
    { workflow with
        steps := new_steps
        metadata :=
          dictSet (dictSet workflow.metadata "total_steps" (.num new_steps.length))
            "wait_steps_inserted"
            (.num (mkRat (Int.ofNat new_steps.length - Int.ofNat workflow.steps.length) 1)) }

/-! ### Workflow enricher (`_enrich_workflow` / `_find_matching_event`) -/

/-- `_find_matching_event`: first session event whose recorded coordinates
(read with default 0) equal the step's fallback coordinates. -/
def find_matching_event (step : WorkflowStep) (session : SessionTimeline) :
    Option EventLog :=
  session.events.find? (fun event =>
    match step.selector with
    | some sel =>
      match sel.fallback with
      | some fb =>
        match fb.value with
        | .numDict fallback_coords =>
            pyGetD event.data "x" (.num 0) == coordGet fallback_coords "x" &&
            pyGetD event.data "y" (.num 0) == coordGet fallback_coords "y"
        | _ => false
      | none => false
    | none => false)

/-- `_enrich_workflow`: for each step whose selector is a text selector with a
falsy value, look up a session event with matching fallback coordinates and,
if it names an element, copy that name into the selector value; everything
else is untouched. -/
def enrich_workflow (workflow : WorkflowDefinition) (session : SessionTimeline) :
    WorkflowDefinition :=
  { workflow with
      steps := workflow.steps.map (fun step =>
        match step.selector with
        | some sel =>
          if sel.type = "text" ∧ ¬ pyTruthy sel.value then
            match find_matching_event step session with
            | some matching_event =>
              let element_name := pyGet matching_event.data "element_name"
              if pyTruthy element_name then
                { step with selector := some { sel with value := element_name } }
              else step
            | none => step
          else step
        | none => step) }

/-! ### Format adapter (`src/tools/format_converter.py`) -/

/-- Read exactly `k` decimal digits as a number. -/
def takeDigits : ℕ → List Char → ℕ → Option (ℕ × List Char)
  | 0, cs, acc => some (acc, cs)
  | k + 1, c :: rest, acc =>
      if c.isDigit then takeDigits k rest (acc * 10 + (c.toNat - 48)) else none
  | _ + 1, [], _ => none

/-- Expect one specific character. -/
def expectChar (c : Char) : List Char → Option (List Char)
  | x :: rest => if x = c then some rest else none
  | [] => none

/-- Gregorian leap year. -/
def isLeapYear (y : ℕ) : Bool := y % 4 = 0 && (y % 100 ≠ 0 || y % 400 = 0)

/-- Days in a month. -/
def daysInMonth (y m : ℕ) : ℕ :=
  if m = 2 then (if isLeapYear y then 29 else 28)
  else if m = 4 ∨ m = 6 ∨ m = 9 ∨ m = 11 then 30
  else 31

/-- Days in the years before year `y` (proleptic Gregorian, year 1 based). -/
def daysBeforeYear (y : ℕ) : ℕ :=
  365 * (y - 1) + (y - 1) / 4 + (y - 1) / 400 - (y - 1) / 100

/-- Days in the months of year `y` before month `m`. -/
def daysBeforeMonth (y m : ℕ) : ℕ :=
  ([31, 28, 31, 30, 31, 30, 31, 31, 30, 31, 30].take (m - 1)).sum
    + (if 2 < m ∧ isLeapYear y then 1 else 0)

/-- Collect a run of digits (value, count, rest); a run of `k` digits worth
`v` after a decimal point denotes the fraction `v / 10^k`. -/
def takeDigitRun : List Char → ℕ → ℕ → (ℕ × ℕ × List Char)
  | c :: rest, acc, cnt =>
      if c.isDigit then takeDigitRun rest (acc * 10 + (c.toNat - 48)) (cnt + 1)
      else (acc, cnt, c :: rest)
  | [], acc, cnt => (acc, cnt, [])

/-- The time-of-day and offset tail of an ISO timestamp: `HH:MM`, optional
`:SS`, optional fractional seconds, optional `+HH:MM`/`-HH:MM` offset. -/
def parseIsoTime (cs : List Char) : Option ℚ := do
  let (h, cs) ← takeDigits 2 cs 0
  let cs ← expectChar ':' cs
  let (mi, cs) ← takeDigits 2 cs 0
  let (ss, cs) ←
    match cs with
    | ':' :: rest => takeDigits 2 rest 0
    | _ => some (0, cs)
  let (frac, cs) ←
    match cs with
    | '.' :: rest =>
        let out := takeDigitRun rest 0 0
        if 1 ≤ out.2.1 then some (mkRat (Int.ofNat out.1) (10 ^ out.2.1), out.2.2) else none
    | _ => some ((0 : ℚ), cs)
  let (off, cs) ←
    match cs with
    | '+' :: rest => do
        let (oh, r) ← takeDigits 2 rest 0
        let r ← expectChar ':' r
        let (om, r) ← takeDigits 2 r 0
        if oh ≤ 23 ∧ om ≤ 59 then some (((oh * 60 + om : ℕ) : ℤ), r) else none
    | '-' :: rest => do
        let (oh, r) ← takeDigits 2 rest 0
        let r ← expectChar ':' r
        let (om, r) ← takeDigits 2 r 0
        if oh ≤ 23 ∧ om ≤ 59 then some ((-(oh * 60 + om : ℕ) : ℤ), r) else none
    | _ => some ((0 : ℤ), cs)
  if cs = [] ∧ h ≤ 23 ∧ mi ≤ 59 ∧ ss ≤ 59 then
    some (qsub (qadd (mkRat (Int.ofNat (h * 3600 + mi * 60 + ss)) 1) frac) (mkRat (off * 60) 1))
  else none

/-- `datetime.fromisoformat` over the shapes of timestamp the adapter feeds
it (`YYYY-MM-DD`, optionally `T`/space plus a time of day and UTC offset),
returning the instant as rational seconds from the proleptic origin;
malformed strings return `none` where Python raises `ValueError`. -/
def pyFromIso (s : String) : Option ℚ := do
  let cs := s.toList
  let (y, cs) ← takeDigits 4 cs 0
  let cs ← expectChar '-' cs
  let (m, cs) ← takeDigits 2 cs 0
  let cs ← expectChar '-' cs
  let (d, cs) ← takeDigits 2 cs 0
  if 1 ≤ y ∧ 1 ≤ m ∧ m ≤ 12 ∧ 1 ≤ d ∧ d ≤ daysInMonth y m then
    let dateSecs : ℚ :=
      mkRat (Int.ofNat ((daysBeforeYear y + daysBeforeMonth y m + (d - 1)) * 86400)) 1
    match cs with
    | [] => some dateSecs
    | sep :: rest =>
      if sep = 'T' ∨ sep = ' ' then do
        let t ← parseIsoTime rest
        some (qadd dateSecs t)
      else none
  else none

/-- One action of the third-party recording format. -/
structure FriendAction where
  command : Option String := none
  element : List (String × PyVal) := []
  parameters : List (String × PyVal) := []
  timestamp : String
  screenshot : Option String := none
deriving DecidableEq, Repr, Inhabited

/-- A third-party recording: metadata plus an ordered action list. -/
structure FriendData where
  metadata : List (String × PyVal) := []
  actions : List FriendAction := []
deriving DecidableEq, Repr, Inhabited

/-- `map_command_to_event_type`: the third-party command vocabulary. -/
def map_command_to_event_type (command : Option String) : Option EventType :=
  match command with
  | some "CLICK" => some EventType.mouse_click
  | some "TYPE" => some EventType.text_input
  | some "PRESS" => some EventType.key_press
  | some "SCROLL" => some EventType.scroll
  | some "DRAG" => some EventType.mouse_drag
  | some "HOTKEY" => some EventType.key_combination
  | some "COPY" => some EventType.key_combination
  | some "PASTE" => some EventType.key_combination
  | _ => none

/-- The body of `convert_friend_format`'s action loop: the event produced for
one action, or `none` when the action is the `STOP` sentinel, has an unmapped
command, or carries a timestamp that still fails to parse after the stray
`"M:"` repair. -/
def convAction (action : FriendAction) : Option EventLog :=
  if action.command = some "STOP" then none
  else
    match map_command_to_event_type action.command with
    | none => none
    | some event_type =>
      let element_name := pyGetStrD action.element "name" ""
      let element_type := pyGetStrD action.element "control_type" ""
      let automation_id := pyGetStrD action.element "automation_id" ""
      let params := action.parameters
      let params :=
        match pyLookup params "button" with
        | some (.str b) => dictSet params "button" (.str (pyLower (pyReplace b "Button." "")))
        | _ => params
      let params :=
        match pyLookup params "key" with
        | some (.str k) =>
            if pyStartsWith k "Key." then
              dictSet params "key" (.str (pyLower (pyReplace k "Key." "")))
            else params
        | _ => params
      let params :=
        if action.command = some "COPY" then
          dictSet (dictSet params "user_intent" (.str "copy_to_clipboard"))
            "clipboard_content" (pyGetD params "content" (.str ""))
        else if action.command = some "PASTE" then
          dictSet (dictSet params "user_intent" (.str "paste_from_clipboard"))
            "clipboard_content" (pyGetD params "content" (.str ""))
        else params
      let params :=
        if element_name ≠ "" ∧ element_name ≠ "Error" ∧ element_name ≠ "N/A" ∧
            element_name ≠ "Unknown" then
          dictSet params "element_name" (.str element_name)
        else params
      let params :=
        if element_type ≠ "" ∧ element_type ≠ "Unknown" then
          dictSet params "element_type" (.str element_type)
        else params
      let params :=
        if automation_id ≠ "" ∧ automation_id ≠ "N/A" then
          dictSet params "automation_id" (.str automation_id)
        else params
      let timestamp_str := pyReplace action.timestamp "M:" ":"
      match pyFromIso (pyReplace timestamp_str "Z" "+00:00") with
      | some t =>
          some { timestamp := t, event_type := event_type, data := params,
                 screenshot_ref := action.screenshot }
      | none => none

/-- The session start time used by `convert_friend_format`:
`metadata.get("startTimeFormatted", datetime.now().isoformat())` parsed with
`fromisoformat` after the `Z` repair; `now` stands for `datetime.now()`
(parsing its own isoformat output always succeeds), and `none` models the
`ValueError` Python raises on an unparsable stored value. -/
def friendStartTime (friend_data : FriendData) (now : ℚ) : Option ℚ :=
  match pyLookup friend_data.metadata "startTimeFormatted" with
  | some (.str s) => pyFromIso (pyReplace s "Z" "+00:00")
  | some _ => none
  | none => some now

/-- `convert_friend_format`: convert a third-party recording to a session
timeline.  The result is `none` exactly when the metadata start time fails to
parse (where Python raises). -/
def convert_friend_format (friend_data : FriendData) (now : ℚ) :
    Option SessionTimeline :=
  match friendStartTime friend_data now with
  | some st =>
      some { session_id := "session-" ++ pyStr (pyGetD friend_data.metadata "startTimeSeconds" (.str "unknown"))
             start_time := st
             application := "Firefox Browser"
             events := friend_data.actions.filterMap convAction
             metadata := friend_data.metadata }
  | none => none

/-! ### Auxiliary predicates -/

/-- A pair of adjacent events that `group_typing_sequences` would merge: a
text-input immediately followed by a space key-press. -/
def mergeablePair (a b : EventLog) : Bool :=
  a.event_type == EventType.text_input && b.event_type == EventType.key_press &&
    strIn "space" (pyLower (pyGetStrD b.data "key" ""))

/-- No adjacent mergeable pair occurs in the list (no mergeable runs remain). -/
def noMergeable : List EventLog → Bool
  | a :: b :: rest => !mergeablePair a b && noMergeable (b :: rest)
  | _ => true

/-! ### Concrete fixtures for the claims -/

/-- A bare text-input event. -/
def textEv (s : String) (t : ℚ) : EventLog :=
  { timestamp := t, event_type := EventType.text_input, data := [("text", .str s)] }

/-- A bare key-press event. -/
def keyEv (k : String) (t : ℚ) : EventLog :=
  { timestamp := t, event_type := EventType.key_press, data := [("key", .str k)] }

/-- A bare navigation event. -/
def navEv (u : String) (t : ℚ) : EventLog :=
  { timestamp := t, event_type := EventType.navigation, data := [("url", .str u)] }

/-- A navigation step (no kind-specific correlation strategy applies to it). -/
def navStep (i : ℕ) (u : String) : WorkflowStep :=
  { step_id := "step-" ++ toString i, action := ActionType.navigate,
    description := "Navigate to " ++ u, selector := none,
    parameters := [("url", .str u)] }

/-- C1's counterexample event: a text-input with an element name present. -/
def c1_event : EventLog :=
  { timestamp := 0, event_type := EventType.text_input,
    data := [("text", .str "hi"), ("element_name", .str "Search Box"),
             ("x", .num 10), ("y", .num 20)] }

/-- C2's two-step workflow used on the 3.4 s gap. -/
def c2_workflow : WorkflowDefinition :=
  { workflow_id := "w", name := "n", description := "d", application := "app",
    steps := [navStep 1 "a", navStep 2 "b"], metadata := [] }

/-- C2's session with a 3.4 s gap. -/
def c2_session : SessionTimeline :=
  { session_id := "s", start_time := 0, application := "app",
    events := [navEv "a" 0, navEv "b" (mkRat 17 5)] }

/-- C2's session with a 50 s gap. -/
def c2_session50 : SessionTimeline :=
  { session_id := "s", start_time := 0, application := "app",
    events := [navEv "a" 0, navEv "b" 50] }

/-- C2's session with a 1.0 s gap. -/
def c2_session1 : SessionTimeline :=
  { session_id := "s", start_time := 0, application := "app",
    events := [navEv "a" 0, navEv "b" 1] }

/-- C3's counterexample input: a text-input followed by two space key-presses;
the first pass merges the first two events and leaves the second space, which
is mergeable again with the merged text event. -/
def c3_events : List EventLog :=
  [textEv "a" 0, keyEv "space" 1, keyEv "space" 2]

/-- C3's witness input, left fixed by one simplification pass. -/
def c3w_events : List EventLog :=
  [textEv "hi" 0, keyEv "enter" 1, navEv "x" 2]

/-- C4's input events. -/
def c4_events : List EventLog :=
  [textEv "never" 0, keyEv "space" 1, textEv "gonna" 2, keyEv "space" 3,
   textEv "give" 4]

/-- C5's failing input: a key-combination event carrying Ctrl+V. -/
def c5_ctrl_v : EventLog :=
  { timestamp := 0, event_type := EventType.key_combination,
    data := [("keys", .strList ["ctrl", "v"])] }

/-- A Ctrl+C combination event. -/
def c5_ctrl_c : EventLog :=
  { timestamp := 0, event_type := EventType.key_combination,
    data := [("keys", .strList ["ctrl", "c"])] }

/-- An Alt+Tab combination event (neither copy nor paste). -/
def c5_alt_tab : EventLog :=
  { timestamp := 0, event_type := EventType.key_combination,
    data := [("keys", .strList ["alt", "tab"])] }

/-- An arbitrary following event for the wait-reason classifier. -/
def c5_next : EventLog := keyEv "x" 1

/-- C6's counterexample event: a plain hotkey whose raw tokens keep their
library prefix and casing. -/
def c6_event : EventLog :=
  { timestamp := 0, event_type := EventType.key_combination,
    data := [("keys", .strList ["Key.ctrl_l", "C"])] }

/-- C6's witness event: a press of the raw token `Key.enter`. -/
def c6_enter_event : EventLog := keyEv "Key.enter" 0

/-- C7's witness step and events. -/
def c7_step : WorkflowStep := navStep 1 "somewhere"

/-- C7's witness events. -/
def c7_events : List EventLog := [navEv "a" 0, navEv "b" 1]

/-- C8's step: a text selector with an empty value and fallback
coordinates (5, 5). -/
def c8_step : WorkflowStep :=
  { step_id := "step-1", action := ActionType.click, description := "Click",
    selector := some { type := "text", value := .str "",
                       fallback := some { type := "coordinates",
                                          value := .numDict [("x", 5), ("y", 5)] } },
    parameters := [] }

/-- C8's workflow. -/
def c8_workflow : WorkflowDefinition :=
  { workflow_id := "w", name := "n", description := "d", application := "app",
    steps := [c8_step], metadata := [("k", .str "v")] }

/-- C8's session: one event at (5, 5) naming an element. -/
def c8_session : SessionTimeline :=
  { session_id := "s", start_time := 0, application := "app",
    events := [{ timestamp := 0, event_type := EventType.mouse_click,
                 data := [("x", .num 5), ("y", .num 5),
                          ("element_name", .str "Sign In")] }] }

/-- C9's well-formed action. -/
def c9_click : FriendAction :=
  { command := some "CLICK", timestamp := "2024-05-01T17:56:40",
    parameters := [("x", .num 1), ("y", .num 2)] }

/-- C9's `STOP` sentinel action. -/
def c9_stop : FriendAction := { command := some "STOP", timestamp := "2024-05-01T17:56:41" }

/-- C9's action with the stray-character timestamp (the `"M:"` form). -/
def c9_mform : FriendAction :=
  { command := some "TYPE", timestamp := "2024-05-01T17:56M:47",
    parameters := [("text", .str "hello")] }

/-- C9's action whose timestamp cannot be repaired. -/
def c9_bad : FriendAction := { command := some "CLICK", timestamp := "not a time" }

/-- C9's recording. -/
def c9_data : FriendData :=
  { metadata := [("startTimeSeconds", .num 5)],
    actions := [c9_click, c9_stop, c9_mform, c9_bad] }

/-- The session `convert_friend_format` produces on C9's recording (its
metadata has no formatted start time, so the start time is the supplied
current instant 0). -/
def c9_result : SessionTimeline :=
  { session_id := "session-" ++ pyStr (pyGetD c9_data.metadata "startTimeSeconds" (.str "unknown"))
    start_time := 0
    application := "Firefox Browser"
    events := c9_data.actions.filterMap convAction
    metadata := c9_data.metadata }

/-- C10's nonempty workflow. -/
def c10_workflow : WorkflowDefinition :=
  { workflow_id := "w", name := "n", description := "d", application := "app",
    steps := [navStep 1 "a"], metadata := [] }

/-- C10's empty-step workflow. -/
def c10_empty_workflow : WorkflowDefinition :=
  { workflow_id := "w", name := "n", description := "d", application := "app",
    steps := [], metadata := [] }

/-- C10's nonempty session. -/
def c10_session : SessionTimeline :=
  { session_id := "s", start_time := 0, application := "app",
    events := [navEv "a" 0] }

/-! ### Helper lemmas -/

/-- `qadd` is addition. -/
theorem qadd_eq (a b : ℚ) : qadd a b = a + b := (Rat.add_def' a b).symm

/-- `qsub` is subtraction. -/
theorem qsub_eq (a b : ℚ) : qsub a b = a - b := (Rat.sub_def' a b).symm

/-- `qmin` is `min`. -/
theorem qmin_eq (a b : ℚ) : qmin a b = min a b := (min_def a b).symm

/-- Looking up the key just written by `dictSet` yields the written value. -/
theorem pyLookup_dictSet_self (d : List (String × PyVal)) (k : String) (v : PyVal) :
    pyLookup (dictSet d k v) k = some v := by
  induction d with
  | nil => simp [dictSet, pyLookup]
  | cons p rest ih =>
    by_cases h : p.1 = k
    · simp [dictSet, h, pyLookup]
    · simp [dictSet, h, pyLookup, ih]

/-- `dictSet` leaves lookups of other keys unchanged. -/
theorem pyLookup_dictSet_ne (d : List (String × PyVal)) (k k' : String) (v : PyVal)
    (h : k ≠ k') : pyLookup (dictSet d k v) k' = pyLookup d k' := by
  induction d with
  | nil => simp [dictSet, pyLookup, h]
  | cons p rest ih =>
    by_cases hp : p.1 = k
    · simp [dictSet, hp, pyLookup, h]
    · simp only [dictSet, if_neg hp]
      by_cases hp' : p.1 = k'
      · simp [pyLookup, hp']
      · simp [pyLookup, hp', ih]

/-- A `noMergeable` list stays `noMergeable` after dropping its head. -/
theorem noMergeable_tail (e : EventLog) (rest : List EventLog)
    (h : noMergeable (e :: rest) = true) : noMergeable rest = true := by
  cases rest with
  | nil => simp [noMergeable]
  | cons b r =>
    simp only [noMergeable, Bool.and_eq_true] at h
    exact h.2

/-- When a text-input event is not followed by a space key-press, the inner
collection loop consumes just that one event. -/
theorem collectRun_single (e : EventLog) (rest : List EventLog)
    (he : e.event_type = EventType.text_input)
    (h : ∀ b r, rest = b :: r → mergeablePair e b = false) :
    collectRun (e :: rest) = ([pyGetStrD e.data "text" ""], 1) := by
  cases rest with
  | nil => simp [collectRun, he]
  | cons b r =>
    have hb := h b r rfl
    simp only [mergeablePair, he, beq_self_eq_true, Bool.true_and,
      Bool.and_eq_false_iff, beq_eq_false_iff_ne, ne_eq] at hb
    have hcond : ¬ (b.event_type = EventType.key_press ∧
        strIn "space" (pyLower (pyGetStrD b.data "key" "")) = true) := by
      rcases hb with hb | hb
      · exact fun hc => hb hc.1
      · exact fun hc => by simp [hc.2] at hb
    simp [collectRun, he, hcond]

/-- A list with no mergeable runs is a fixed point of the grouping loop, at
every fuel value. -/
theorem groupTypingAux_fixed :
    ∀ fuel l, noMergeable l = true → groupTypingAux fuel l = l := by
  intro fuel
  induction fuel with
  | zero => intro l _; rfl
  | succ n ih =>
    intro l h
    cases l with
    | nil => rfl
    | cons e rest =>
      by_cases he : e.event_type = EventType.text_input
      · have hcr : collectRun (e :: rest) = ([pyGetStrD e.data "text" ""], 1) := by
          apply collectRun_single e rest he
          intro b r hbr
          subst hbr
          simp only [noMergeable, Bool.and_eq_true, Bool.not_eq_true'] at h
          exact h.1
        rw [groupTypingAux, if_pos he, hcr]
        rw [ih rest (noMergeable_tail e rest h)]
        simp
      · rw [groupTypingAux, if_neg he, ih rest (noMergeable_tail e rest h)]

/-- A list with no mergeable runs is a fixed point of
`group_typing_sequences`. -/
theorem group_typing_sequences_fixed :
    ∀ l, noMergeable l = true → group_typing_sequences l = l := fun l h =>
  groupTypingAux_fixed l.length l h

/-! ### Claim C3 — idempotence of simplification -/

/-- C3 counterexample: running the simplifier twice does not always equal
running it once.  On `[text "a", key "space", key "space"]` one pass merges
the text and the first space into a grouped text event and leaves the second
space key, which forms a new mergeable pair, so the second pass merges
again. -/
theorem c3_simplify_not_idempotent :
    simplify_actions (simplify_actions c3_events) ≠ simplify_actions c3_events := by
  decide

/-- C3 (amended): the simplifier is idempotent whenever its first pass leaves
no mergeable run — no text-input event immediately followed by a space
key-press — which is the spec's own proviso ("idempotent when no mergeable
runs remain"). -/
theorem c3_simplify_idempotent_when_no_mergeable_runs (events : List EventLog)
    (h : noMergeable (simplify_actions events) = true) :
    simplify_actions (simplify_actions events) = simplify_actions events :=
  group_typing_sequences_fixed (simplify_actions events) h

/-- C3 witness: a concrete event list whose simplification has no mergeable
run, on which double simplification equals single simplification. -/
theorem c3_simplify_idempotent_witness :
    noMergeable (simplify_actions c3w_events) = true ∧
    simplify_actions (simplify_actions c3w_events) = simplify_actions c3w_events :=
  ⟨by decide, c3_simplify_idempotent_when_no_mergeable_runs c3w_events (by decide)⟩

/-! ### Claim C4 — grouping correctness -/

/-- C4: simplifying `[text "never", key "space", text "gonna", key "space",
text "give"]` yields exactly one event, a text-input with text
`"never gonna give"` and merge count (`grouped_from`) 5. -/
theorem c4_grouping_correctness :
    (simplify_actions c4_events).length = 1 ∧
    ((simplify_actions c4_events).getD 0 default).event_type = EventType.text_input ∧
    pyGet ((simplify_actions c4_events).getD 0 default).data "text" =
      .str "never gonna give" ∧
    pyGet ((simplify_actions c4_events).getD 0 default).data "grouped_from" = .num 5 := by
  decide

/-! ### Claim C5 — wait-reason classification for clipboard combinations -/

/-- C5: evaluation of the wait-reason classifier on the claim's inputs.
A Ctrl+C combination yields "copy operation" and a combination that is
neither copy nor paste yields "keyboard shortcut", as claimed — but a Ctrl+V
combination also yields "copy operation", not "paste operation": the copy
rule's substring test `"c" in k` already matches the token `"ctrl"`, so the
paste rule is unreachable for any combination containing a ctrl token. -/
theorem c5_wait_reason_clipboard_eval :
    infer_wait_reason c5_ctrl_c c5_next = "copy operation" ∧
    infer_wait_reason c5_alt_tab c5_next = "keyboard shortcut" ∧
    infer_wait_reason c5_ctrl_v c5_next = "copy operation" ∧
    infer_wait_reason c5_ctrl_v c5_next ≠ "paste operation" := by
  refine ⟨by decide, by decide, by decide, by decide⟩

/-! ### Claim C7 — positional fallback of the correlator -/

/-- C7: when strategy 1 (kind-specific matching) finds no event, the
correlator returns the event at the step's own index when that index is in
range, and `none` otherwise. -/
theorem c7_positional_fallback (step : WorkflowStep) (events : List EventLog)
    (step_index : ℕ) (h : events.find? (matchStep step) = none) :
    find_step_event step events step_index =
      if step_index < events.length then some (events.getD step_index default)
      else none := by
  simp [find_step_event, h]

/-- C7 witness: a navigate step matches no kind-specific strategy, so the
correlator returns the event at the step's index (and `none` out of
range). -/
theorem c7_positional_fallback_witness :
    c7_events.find? (matchStep c7_step) = none ∧
    find_step_event c7_step c7_events 0 = some (navEv "a" 0) ∧
    find_step_event c7_step c7_events 5 = none := by
  refine ⟨by decide, ?_, ?_⟩
  · rw [c7_positional_fallback c7_step c7_events 0 (by decide)]
    decide
  · rw [c7_positional_fallback c7_step c7_events 5 (by decide)]
    decide

/-! ### Claim C10 — empty-input guard of the wait inserter -/

/-- C10: with an empty step list or an empty event list, `insert_wait_steps`
returns the workflow unchanged (in particular, no metadata keys are written);
on nonempty inputs the metadata keys `total_steps` and `wait_steps_inserted`
are always written, even when no waits are inserted. -/
theorem c10_empty_guard_and_metadata (workflow : WorkflowDefinition)
    (session : SessionTimeline) (thr buf cap : ℚ) :
    ((workflow.steps = [] ∨ session.events = []) →
      insert_wait_steps workflow session thr buf cap = workflow) ∧
    (workflow.steps ≠ [] → session.events ≠ [] →
      (pyLookup (insert_wait_steps workflow session thr buf cap).metadata
          "total_steps").isSome = true ∧
      (pyLookup (insert_wait_steps workflow session thr buf cap).metadata
          "wait_steps_inserted").isSome = true) := by
  constructor
  · intro h
    rw [insert_wait_steps, if_pos h]
  · intro h1 h2
    have hne : ¬ (workflow.steps = [] ∨ session.events = []) := by
      intro hc; rcases hc with hc | hc
      · exact h1 hc
      · exact h2 hc
    rw [insert_wait_steps, if_neg hne]
    constructor
    · rw [pyLookup_dictSet_ne _ _ _ _ (by decide), pyLookup_dictSet_self]
      rfl
    · rw [pyLookup_dictSet_self]
      rfl

/-- C10 witness: the guard and the metadata writes on concrete workflows. -/
theorem c10_empty_guard_and_metadata_witness :
    insert_wait_steps c10_empty_workflow c10_session 2 1 10 = c10_empty_workflow ∧
    (pyLookup (insert_wait_steps c10_workflow c10_session 2 1 10).metadata
        "total_steps").isSome = true ∧
    (pyLookup (insert_wait_steps c10_workflow c10_session 2 1 10).metadata
        "wait_steps_inserted").isSome = true :=
  ⟨(c10_empty_guard_and_metadata c10_empty_workflow c10_session 2 1 10).1 (Or.inl rfl),
   (c10_empty_guard_and_metadata c10_workflow c10_session 2 1 10).2
     (by decide) (by decide)⟩

/-! ### Claim C1 — selectors of keyboard-class steps -/

/-- C1 counterexample: a text-input event with an element name present
synthesizes a type-text step (keyboard class) whose selector is not absent:
the source builds a text selector for it. -/
theorem c1_type_text_selector_counterexample :
    (event_to_step c1_event 1).map (fun s => s.action) = some ActionType.type_text ∧
    (event_to_step c1_event 1).map (fun s => s.selector.isSome) = some true := by
  decide

/-- C1 (amended): press-key and key-combination steps always carry an absent
selector; a type-text step carries an absent selector exactly when its source
event has no (truthy) element name — otherwise it carries a text selector. -/
theorem c1_keyboard_steps_selector_amended (event : EventLog) (n : ℕ)
    (step : WorkflowStep) (h : event_to_step event n = some step) :
    ((step.action = ActionType.press_key ∨ step.action = ActionType.key_combination) →
      step.selector = none) ∧
    (step.action = ActionType.type_text →
      (step.selector = none ↔
        pyTruthy (pyGetD event.data "element_name" (.str "")) = false)) := by
  cases hev : event.event_type <;> simp only [event_to_step, hev] at h
  case screenshot => cases h
  case mouse_click =>
    obtain rfl := Option.some.inj h
    by_cases hb : pyGetD event.data "button" (.str "left") = .str "right" <;>
      constructor <;> intro hc <;> simp [hb] at hc
  case mouse_double_click =>
    obtain rfl := Option.some.inj h
    constructor <;> intro hc <;> simp at hc
  case mouse_drag =>
    obtain rfl := Option.some.inj h
    constructor <;> intro hc <;> simp at hc
  case text_input =>
    obtain rfl := Option.some.inj h
    constructor
    · intro hc; simp at hc
    · intro _
      by_cases ht : pyTruthy (pyGetD event.data "element_name" (.str "")) <;> simp [ht]
  case key_press =>
    obtain rfl := Option.some.inj h
    constructor
    · intro _; rfl
    · intro hc; simp at hc
  case key_combination =>
    split at h
    · obtain rfl := Option.some.inj h
      exact ⟨fun _ => rfl, fun hc => by simp at hc⟩
    · split at h
      · obtain rfl := Option.some.inj h
        exact ⟨fun _ => rfl, fun hc => by simp at hc⟩
      · obtain rfl := Option.some.inj h
        exact ⟨fun _ => rfl, fun hc => by simp at hc⟩
  case scroll =>
    obtain rfl := Option.some.inj h
    constructor <;> intro hc <;> simp at hc
  case navigation =>
    obtain rfl := Option.some.inj h
    constructor
    · intro _; rfl
    · intro hc; simp at hc

/-- C1 witness: a press-key step has an absent selector, and a type-text step
from an event with no element name has an absent selector. -/
theorem c1_keyboard_steps_selector_witness :
    ((event_to_step c6_enter_event 1).getD default).selector = none ∧
    ((event_to_step (textEv "hi" 0) 1).getD default).selector = none := by
  constructor
  · exact (c1_keyboard_steps_selector_amended c6_enter_event 1 _ (by decide)).1
      (Or.inl (by decide))
  · exact ((c1_keyboard_steps_selector_amended (textEv "hi" 0) 1 _ (by decide)).2
      (by decide)).mpr (by decide)

/-! ### Claim C6 — key-name canonicalization in parameters -/

/-- C6 counterexample: a plain hotkey event (no clipboard intent) passes its
raw key tokens through unchanged, so the keys parameter of the synthesized
key-combination step still carries the raw-library prefix `Key.` and original
casing. -/
theorem c6_key_canonicalization_counterexample :
    (event_to_step c6_event 1).map (fun s => pyLookup s.parameters "keys") =
      some (some (.strList ["Key.ctrl_l", "C"])) ∧
    strIn "Key." "Key.ctrl_l" = true := by
  decide

/-- C6 (amended): a press-key step's `key` parameter is the raw key with all
`Key.` prefixes removed and lower-cased (in particular `"Key.enter"` becomes
`"enter"`); a key-combination step's `keys` parameter is the canonical pair
`["Ctrl", "C"]` / `["Ctrl", "V"]` when the event carries a clipboard intent
tag, and otherwise is the event's raw key list passed through unchanged. -/
theorem c6_key_canonicalization_amended (event : EventLog) (n : ℕ)
    (step : WorkflowStep) (h : event_to_step event n = some step) :
    (step.action = ActionType.press_key →
      pyLookup step.parameters "key" =
        some (.str (pyLower (pyReplace (pyGetStrD event.data "key" "") "Key." "")))) ∧
    (step.action = ActionType.key_combination →
      (pyGetD event.data "user_intent" (.str "") = .str "copy_to_clipboard" →
        pyLookup step.parameters "keys" = some (.strList ["Ctrl", "C"])) ∧
      (pyGetD event.data "user_intent" (.str "") = .str "paste_from_clipboard" →
        pyLookup step.parameters "keys" = some (.strList ["Ctrl", "V"])) ∧
      (pyGetD event.data "user_intent" (.str "") ≠ .str "copy_to_clipboard" →
        pyGetD event.data "user_intent" (.str "") ≠ .str "paste_from_clipboard" →
        pyLookup step.parameters "keys" = some (pyGetD event.data "keys" (.strList [])))) := by
  cases hev : event.event_type <;> simp only [event_to_step, hev] at h
  case screenshot => cases h
  case mouse_click =>
    obtain rfl := Option.some.inj h
    by_cases hb : pyGetD event.data "button" (.str "left") = .str "right" <;>
      constructor <;> intro hc <;> simp [hb] at hc
  case mouse_double_click =>
    obtain rfl := Option.some.inj h
    constructor <;> intro hc <;> simp at hc
  case mouse_drag =>
    obtain rfl := Option.some.inj h
    constructor <;> intro hc <;> simp at hc
  case text_input =>
    obtain rfl := Option.some.inj h
    constructor <;> intro hc <;> simp at hc
  case key_press =>
    obtain rfl := Option.some.inj h
    constructor
    · intro _
      simp [pyLookup]
    · intro hc; simp at hc
  case key_combination =>
    split at h
    case isTrue hcopy =>
      obtain rfl := Option.some.inj h
      refine ⟨fun hc => by simp at hc, fun _ => ⟨fun _ => by simp [pyLookup], ?_, ?_⟩⟩
      · intro hpaste
        rw [hcopy] at hpaste
        simp at hpaste
      · intro hncopy _
        exact absurd hcopy hncopy
    case isFalse hncopy =>
      split at h
      case isTrue hpaste =>
        obtain rfl := Option.some.inj h
        refine ⟨fun hc => by simp at hc, fun _ => ⟨?_, fun _ => by simp [pyLookup], ?_⟩⟩
        · intro hcopy
          exact absurd hcopy hncopy
        · intro _ hnpaste
          exact absurd hpaste hnpaste
      case isFalse hnpaste =>
        obtain rfl := Option.some.inj h
        refine ⟨fun hc => by simp at hc, fun _ => ⟨?_, ?_, fun _ _ => by simp [pyLookup]⟩⟩
        · intro hcopy
          exact absurd hcopy hncopy
        · intro hpaste
          exact absurd hpaste hnpaste
  case scroll =>
    obtain rfl := Option.some.inj h
    constructor <;> intro hc <;> simp at hc
  case navigation =>
    obtain rfl := Option.some.inj h
    constructor <;> intro hc <;> simp at hc
/-- C6 witness: the raw token `Key.enter` is canonicalized to `enter` in the
press-key parameter, and a plain hotkey's keys parameter is the raw list. -/
theorem c6_key_canonicalization_witness :
    pyLookup ((event_to_step c6_enter_event 1).getD default).parameters "key" =
      some (.str "enter") ∧
    pyLookup ((event_to_step c6_event 1).getD default).parameters "keys" =
      some (.strList ["Key.ctrl_l", "C"]) := by
  constructor
  · exact ((c6_key_canonicalization_amended c6_enter_event 1 _ (by decide)).1
      (by decide)).trans (by decide)
  · exact (((c6_key_canonicalization_amended c6_event 1 _ (by decide)).2
      (by decide)).2.2 (by decide) (by decide)).trans (by decide)

/-! ### Claim C2 — wait insertion threshold, buffer and cap -/

/-- C2: with default settings (threshold 2.0, buffer 1.0, cap 10.0) and
nonempty inputs, the steps of `insert_wait_steps` are exactly the original
steps with, immediately after each step `i`, the optional wait produced for
the pair `(i, i+1)`; and whenever both steps of a pair correlate to events,
that wait exists if and only if the correlated timestamps are at least 2.0 s
apart, in which case its duration is `min(round(delta + 1.0, 1), 10.0)` for
`delta` the observed gap. -/
theorem c2_wait_insertion_gap_rule (workflow : WorkflowDefinition)
    (session : SessionTimeline) (hw : workflow.steps ≠ []) (hs : session.events ≠ []) :
    (insert_wait_steps workflow session 2 1 10).steps =
      (List.range workflow.steps.length).flatMap (fun i =>
        workflow.steps.getD i default ::
          (waitAfter workflow.steps (sortEvents session.events) 2 1 10 i).toList) ∧
    ∀ i current_event next_event,
      i + 1 < workflow.steps.length →
      find_step_event (workflow.steps.getD i default) (sortEvents session.events) i =
        some current_event →
      find_step_event (workflow.steps.getD (i + 1) default) (sortEvents session.events)
        (i + 1) = some next_event →
      ((2 ≤ next_event.timestamp - current_event.timestamp →
        waitAfter workflow.steps (sortEvents session.events) 2 1 10 i =
          some (mkWaitStep (workflow.steps.getD i default)
            (min (pyRound1 (next_event.timestamp - current_event.timestamp + 1)) 10)
            (next_event.timestamp - current_event.timestamp)
            (infer_wait_reason current_event next_event))) ∧
       (next_event.timestamp - current_event.timestamp < 2 →
        waitAfter workflow.steps (sortEvents session.events) 2 1 10 i = none)) := by
  constructor
  · have hne : ¬ (workflow.steps = [] ∨ session.events = []) := by
      intro hc; rcases hc with hc | hc
      · exact hw hc
      · exact hs hc
    rw [insert_wait_steps, if_neg hne]
  · intro i current_event next_event hi hce hnx
    constructor
    · intro hd
      simp only [waitAfter, if_pos hi, hce, hnx, qsub_eq, qadd_eq, qmin_eq]
      rw [if_pos hd]
    · intro hd
      simp only [waitAfter, if_pos hi, hce, hnx, qsub_eq, qadd_eq, qmin_eq]
      rw [if_neg (not_le.mpr hd)]

/-- C2 witness: a 3.4 s gap between positionally correlated events yields a
wait of duration 4.4 s right after the first step; a 50 s gap yields a wait
capped at 10.0 s; a 1.0 s gap yields no wait step. -/
theorem c2_wait_insertion_gap_rule_witness :
    waitAfter c2_workflow.steps (sortEvents c2_session.events) 2 1 10 0 =
      some (mkWaitStep (c2_workflow.steps.getD 0 default)
        (min (pyRound1 ((navEv "b" (mkRat 17 5)).timestamp - (navEv "a" 0).timestamp + 1)) 10)
        ((navEv "b" (mkRat 17 5)).timestamp - (navEv "a" 0).timestamp)
        (infer_wait_reason (navEv "a" 0) (navEv "b" (mkRat 17 5)))) ∧
    waitAfter c2_workflow.steps (sortEvents c2_session.events) 2 1 10 0 =
      some (mkWaitStep (navStep 1 "a") (mkRat 22 5) (mkRat 17 5) "action to complete") ∧
    (insert_wait_steps c2_workflow c2_session 2 1 10).steps.map
        (fun st => pyLookup st.parameters "duration_seconds") =
      [none, some (.num (mkRat 22 5)), none] ∧
    (insert_wait_steps c2_workflow c2_session50 2 1 10).steps.map
        (fun st => pyLookup st.parameters "duration_seconds") =
      [none, some (.num 10), none] ∧
    (insert_wait_steps c2_workflow c2_session1 2 1 10).steps = c2_workflow.steps := by
  refine ⟨?_, by decide, by decide, by decide, by decide⟩
  exact ((c2_wait_insertion_gap_rule c2_workflow c2_session (by decide) (by decide)).2
    0 (navEv "a" 0) (navEv "b" (mkRat 17 5)) (by decide) (by decide)
    (by decide)).1 (by rw [← qsub_eq]; decide)

/-! ### Claim C8 — frame property of the enricher -/

/-- C8: the enricher changes at most the value of text selectors with falsy
(empty) values — setting it to the element name of the first session event
whose recorded coordinates equal the step's fallback coordinates, when such
an event exists and names an element — and leaves every other field of every
step, all workflow-level fields, the number of steps and their order
unchanged. -/
theorem c8_enrich_frame (workflow : WorkflowDefinition) (session : SessionTimeline) :
    ((enrich_workflow workflow session).workflow_id = workflow.workflow_id ∧
     (enrich_workflow workflow session).name = workflow.name ∧
     (enrich_workflow workflow session).description = workflow.description ∧
     (enrich_workflow workflow session).version = workflow.version ∧
     (enrich_workflow workflow session).application = workflow.application ∧
     (enrich_workflow workflow session).vars = workflow.vars ∧
     (enrich_workflow workflow session).preconditions = workflow.preconditions ∧
     (enrich_workflow workflow session).metadata = workflow.metadata ∧
     (enrich_workflow workflow session).steps.length = workflow.steps.length) ∧
    ∀ (i : ℕ) (step : WorkflowStep), workflow.steps[i]? = some step →
      ((enrich_workflow workflow session).steps[i]? = some step ∨
       ∃ sel matching_event,
         step.selector = some sel ∧ sel.type = "text" ∧ pyTruthy sel.value = false ∧
         find_matching_event step session = some matching_event ∧
         matching_event ∈ session.events ∧
         pyTruthy (pyGet matching_event.data "element_name") = true ∧
         (enrich_workflow workflow session).steps[i]? =
           some { step with
                  selector :=
                    some { sel with
                           value := pyGet matching_event.data "element_name" } }) := by
  constructor
  · exact ⟨rfl, rfl, rfl, rfl, rfl, rfl, rfl, rfl, by simp [enrich_workflow]⟩
  · intro i step hstep
    have hmap : (enrich_workflow workflow session).steps[i]? =
        (workflow.steps[i]?).map (fun step =>
          match step.selector with
          | some sel =>
            if sel.type = "text" ∧ ¬ pyTruthy sel.value then
              match find_matching_event step session with
              | some matching_event =>
                let element_name := pyGet matching_event.data "element_name"
                if pyTruthy element_name then
                  { step with selector := some { sel with value := element_name } }
                else step
              | none => step
            else step
          | none => step) := by
      simp [enrich_workflow]
    rw [hmap, hstep]
    cases hsel : step.selector with
    | none => left; simp [hsel]
    | some sel =>
      by_cases hcond : sel.type = "text" ∧ ¬ pyTruthy sel.value
      · cases hfind : find_matching_event step session with
        | none => left; simp [hsel, hcond, hfind]
        | some matching_event =>
          by_cases hname : pyTruthy (pyGet matching_event.data "element_name")
          · right
            refine ⟨sel, matching_event, rfl, hcond.1, by simpa using hcond.2, rfl,
              List.mem_of_find?_eq_some hfind, hname, ?_⟩
            simp [hsel, hcond, hfind, hname]
          · left; simp [hsel, hcond, hfind, hname]
      · left
        simp only [hsel, Option.map_some']
        rw [if_neg hcond]

/-- C8 witness: on a concrete workflow whose single step has an empty text
selector and a session event at the step's fallback coordinates, the enricher
keeps all other data and the per-step characterization holds. -/
theorem c8_enrich_frame_witness :
    (enrich_workflow c8_workflow c8_session).metadata = c8_workflow.metadata ∧
    ((enrich_workflow c8_workflow c8_session).steps[0]? = some c8_step ∨
     ∃ sel matching_event,
       c8_step.selector = some sel ∧ sel.type = "text" ∧ pyTruthy sel.value = false ∧
       find_matching_event c8_step c8_session = some matching_event ∧
       matching_event ∈ c8_session.events ∧
       pyTruthy (pyGet matching_event.data "element_name") = true ∧
       (enrich_workflow c8_workflow c8_session).steps[0]? =
         some { c8_step with
                selector :=
                  some { sel with
                         value := pyGet matching_event.data "element_name" } }) :=
  ⟨(c8_enrich_frame c8_workflow c8_session).1.2.2.2.2.2.2.2.1,
   (c8_enrich_frame c8_workflow c8_session).2 0 c8_step (by decide)⟩

/-! ### Claim C9 — format adapter resilience -/

/-- C9: for every third-party recording that converts successfully, the
resulting session's events are exactly the per-action conversions in original
order (`filterMap`), where a `STOP` action yields no event, an action whose
timestamp still fails to parse after the stray-character repair yields no
event (it alone is skipped), and every action with a mapped command and a
timestamp that parses after the `"M:"` repair yields an event carrying the
parsed instant. -/
theorem c9_adapter_resilience (friend_data : FriendData) (now : ℚ)
    (s : SessionTimeline) (h : convert_friend_format friend_data now = some s) :
    s.events = friend_data.actions.filterMap convAction ∧
    (∀ action : FriendAction, action.command = some "STOP" → convAction action = none) ∧
    (∀ action : FriendAction,
      pyFromIso (pyReplace (pyReplace action.timestamp "M:" ":") "Z" "+00:00") = none →
      convAction action = none) ∧
    (∀ (action : FriendAction) (t : ℚ),
      (map_command_to_event_type action.command).isSome = true →
      action.command ≠ some "STOP" →
      pyFromIso (pyReplace (pyReplace action.timestamp "M:" ":") "Z" "+00:00") = some t →
      ∃ e, convAction action = some e ∧ e.timestamp = t ∧
        e.screenshot_ref = action.screenshot) := by
  refine ⟨?_, ?_, ?_, ?_⟩
  · unfold convert_friend_format at h
    split at h
    next st heq =>
      obtain rfl := Option.some.inj h
      rfl
    next heq => cases h
  · intro action ha
    unfold convAction
    rw [if_pos ha]
  · intro action hts
    unfold convAction
    split
    · rfl
    · cases hmc : map_command_to_event_type action.command with
      | none => simp [hmc]
      | some et => simp [hmc, hts]
  · intro action t hm hstop hts
    unfold convAction
    rw [if_neg hstop]
    cases hmc : map_command_to_event_type action.command with
    | none => rw [hmc] at hm; cases hm
    | some et =>
      simp only [hmc, hts]
      exact ⟨_, rfl, rfl, rfl⟩

/-- C9 witness: a concrete recording with a good action, a `STOP` sentinel,
an action with the injected stray character in its timestamp, and an action
with an unrepairable timestamp: conversion succeeds, the events are the
filter-mapped actions (in order the good action and the repaired one), the
`STOP` and unparsable actions are dropped, and the stray character is
repaired so that the action still yields an event. -/
theorem c9_adapter_resilience_witness :
    c9_result.events = c9_data.actions.filterMap convAction ∧
    convAction c9_stop = none ∧
    convAction c9_bad = none ∧
    (convAction c9_mform).isSome = true ∧
    c9_result.events.length = 2 := by
  have hst : friendStartTime c9_data 0 = some 0 := by decide
  have hconv : convert_friend_format c9_data 0 = some c9_result := by
    unfold convert_friend_format
    rw [hst]
    rfl
  have h := c9_adapter_resilience c9_data 0 c9_result hconv
  refine ⟨h.1, h.2.1 c9_stop rfl, h.2.2.1 c9_bad (by decide), ?_, ?_⟩
  · obtain ⟨e, he, -, -⟩ := h.2.2.2 c9_mform (mkRat 63850183007 1) (by decide) (by decide)
      (by decide)
    simp [he]
  · rw [h.1]
    decide
